import Mathlib

/-!
Verification of the Limo single-page app-builder (`src/unnamed/part_000`,
a Lit component wrapping the Gemini structured-generation API).

The component's reactive fields become a Lean structure `LimoState`; each
event handler (`handleSendMessage`, `handleModificationRequest`,
`handleBuildApp`, `handleFileSelected`, ...) becomes a pure state-transition
function.  The two external collaborators are abstracted at their call
sites exactly as the code consumes them:

* `ai.models.generateContent` either rejects (a caught JS error) or
  resolves with a text; for the schema-constrained calls the only use of
  the text is `JSON.parse(text.trim())`, which either throws or yields a
  JS value, so those responses are modelled as
  `SchemaResponse.fail / .parseFail / .parsed`.
* JS runtime values produced by `JSON.parse` are modelled by `JsValue`
  (numbers restricted to integers; no float appears in any claim), with
  JS truthiness, property access (throwing on `null`/`undefined`) and
  string conversion modelled explicitly.

String primitives (`trim`, `endsWith`, `replace` of a string pattern,
`includes`, `toLowerCase`, `startsWith`) are modelled on `List Char`;
`trim` uses the common JS whitespace set (exotic Unicode spaces omitted),
`toLowerCase` is ASCII (all classifier indicators are ASCII).
-/

/-- A JavaScript runtime value as produced by `JSON.parse` (plus
`undefined`, which property access on objects can yield).  Numbers are
restricted to integers: no fractional number occurs in any property
checked here. -/
inductive JsValue where
  | null
  | undefined
  | bool (b : Bool)
  | num (n : Int)
  | str (s : String)
  | arr (elems : List JsValue)
  | obj (fields : List (String × JsValue))

/-- JS truthiness (`if (v)`).  `NaN` does not arise (integer model). -/
def truthy : JsValue → Bool
  | .null => false
  | .undefined => false
  | .bool b => b
  | .num n => !(n == 0)
  | .str s => !(s == "")
  | .arr _ => true
  | .obj _ => true

/-- Property access on `v` throws a `TypeError` exactly when `v` is
`null` or `undefined`. -/
def canAccess : JsValue → Bool
  | .null => false
  | .undefined => false
  | _ => true

/-- Property read `v[k]`, as an `Option`: `none` models the `TypeError`
thrown when `v` is `null`/`undefined`; a missing key on an object (or any
key on a primitive) reads as `undefined`.  Objects coming from
`JSON.parse` have distinct keys, so first-match lookup is exact. -/
def jsGetOpt (v : JsValue) (k : String) : Option JsValue :=
  match v with
  | .null => none
  | .undefined => none
  | .obj fields => some (((fields.find? (fun p => p.1 == k)).map Prod.snd).getD .undefined)
  | _ => some .undefined

/-- Property read for positions where the base is known not to throw
(`canAccess` holds); on `null`/`undefined` it defaults to `undefined`. -/
def jsGetD (v : JsValue) (k : String) : JsValue :=
  (jsGetOpt v k).getD .undefined

mutual

/-- JS string conversion as performed by template-literal interpolation. -/
def jsToString : JsValue → String
  | .null => "null"
  | .undefined => "undefined"
  | .bool true => "true"
  | .bool false => "false"
  | .num n => toString n
  | .str s => s
  | .arr elems => jsArrJoin elems
  | .obj _ => "[object Object]"

/-- `Array.prototype.join(",")`: elements comma-separated, with `null`
and `undefined` elements rendered as the empty string. -/
def jsArrJoin : List JsValue → String
  | [] => ""
  | [v] =>
    match v with
    | .null => ""
    | .undefined => ""
    | w => jsToString w
  | v :: rest =>
    (match v with
     | .null => ""
     | .undefined => ""
     | w => jsToString w) ++ "," ++ jsArrJoin rest

end

/-- The whitespace class trimmed by `String.prototype.trim` (common
subset; exotic Unicode spaces are not needed by any claim). -/
def isJsSpace (c : Char) : Bool :=
  c == ' ' || c == '\t' || c == '\n' || c == '\r' || c == '\x0b' || c == '\x0c'

/-- Helper for `jsTrim` on character lists. -/
def jsTrimList (cs : List Char) : List Char :=
  ((cs.dropWhile isJsSpace).reverse.dropWhile isJsSpace).reverse

/-- `String.prototype.trim()`. -/
def jsTrim (s : String) : String :=
  ⟨jsTrimList s.data⟩

/-- `String.prototype.endsWith(suffix)`. -/
def strEndsWith (s suffix : String) : Bool :=
  suffix.data.isSuffixOf s.data

/-- `String.prototype.startsWith(p)`. -/
def strStartsWith (s p : String) : Bool :=
  p.data.isPrefixOf s.data

/-- Helper for `hasSubStr`: does `pat` occur contiguously in the list? -/
def infixOfB (pat : List Char) : List Char → Bool
  | [] => pat.isEmpty
  | c :: cs => pat.isPrefixOf (c :: cs) || infixOfB pat cs

/-- `String.prototype.includes(p)`. -/
def hasSubStr (s p : String) : Bool :=
  infixOfB p.data s.data

/-- Helper for `replaceFirst`: drop the first occurrence of `pat`. -/
def replaceFirstList (l pat : List Char) : List Char :=
  match l with
  | [] => []
  | c :: cs =>
    if pat.isPrefixOf (c :: cs) then (c :: cs).drop pat.length
    else c :: replaceFirstList cs pat

/-- `s.replace(pat, "")` for a string pattern `pat`: JS replaces only the
first occurrence (and returns `s` unchanged when `pat` does not occur). -/
def replaceFirst (s pat : String) : String :=
  ⟨replaceFirstList s.data pat.data⟩

/-- `s.replace(/ /g, "+")`: every space character becomes `+`. -/
def plusSpaces (s : String) : String :=
  ⟨s.data.map (fun c => if c == ' ' then '+' else c)⟩

/-- `String.prototype.toLowerCase()` (ASCII; every classifier indicator
is ASCII). -/
def jsToLower (s : String) : String :=
  ⟨s.data.map Char.toLower⟩

/-- The `'[PROPOSE_BUILD]'` marker constant (source line 5). -/
def BUILD_PROPOSAL_TOKEN : String := "[PROPOSE_BUILD]"

/-- Coarse media kind of an attachment (`'image' | 'audio'`). -/
inductive MediaKind where
  | image
  | audio
deriving DecidableEq

/-- Author tag of a display message (`'limo' | 'user'`). -/
inductive Author where
  | limo
  | user
deriving DecidableEq

/-- Role tag of a model-facing history entry (`'user' | 'model'`). -/
inductive ChatRole where
  | user
  | model
deriving DecidableEq

/-- The `activeTab` field (`'preview' | 'code'`). -/
inductive PanelTab where
  | preview
  | code
deriving DecidableEq

/-- The `attachment` rendered inside a display message
(`{ url: string; type: 'image' | 'audio' }`). -/
structure DisplayAttachment where
  url : String
  kind : MediaKind
deriving DecidableEq

/-- A UI-facing transcript entry (interface `DisplayMessage`).  The
optional JS booleans `proposeBuild`/`buildCompleted` are only ever read
through truthiness, so `undefined` is identified with `false`. -/
structure DisplayMessage where
  author : Author
  text : String
  attachment : Option DisplayAttachment := none
  proposeBuild : Bool := false
  buildCompleted : Bool := false
deriving DecidableEq

/-- Inline binary payload of a history part. -/
structure InlineData where
  mimeType : String
  data : String
deriving DecidableEq

/-- A part of a model-facing history entry (interface `HistoryPart`). -/
structure HistoryPart where
  text : Option String := none
  inlineData : Option InlineData := none
deriving DecidableEq

/-- A model-facing history entry (interface `HistoryContent`). -/
structure HistoryContent where
  role : ChatRole
  parts : List HistoryPart
deriving DecidableEq

/-- The pending attachment (interface `Attachment`); the nested `File`
is flattened to the two fields the component reads, `file.type` and
`file.name`, plus the `FileReader` data URL. -/
structure Attachment where
  ftype : String
  fname : String
  dataUrl : String
  kind : MediaKind
deriving DecidableEq

/-- The reactive state of the `LimoApp` component.  `appData` is the raw
JS value assigned from `JSON.parse` (`JsValue.null` when absent); the
`ai` client handle is omitted (claims assume a configured key, i.e.
`apiKeyMissing = false`). -/
structure LimoState where
  apiKeyMissing : Bool
  currentPrompt : String
  isLoading : Bool
  error : Option String
  appData : JsValue
  activeTab : PanelTab
  history : List HistoryContent
  displayHistory : List DisplayMessage
  isFullscreen : Bool
  attachment : Option Attachment

/-- Greeting shown by the constructor. -/
def greetingText : String :=
  "Hello! I\x27m Limo, now upgraded with advanced capabilities. I can help you design and build complex web applications, interactive 3D experiences, data visualizations, and more. Describe your most ambitious idea, and let\x27s build it together."

/-- The component state right after the constructor ran (with a
configured API key). -/
def initState : LimoState where
  apiKeyMissing := false
  currentPrompt := ""
  isLoading := false
  error := none
  appData := .null
  activeTab := .preview
  history := []
  displayHistory := [{ author := .limo, text := greetingText }]
  isFullscreen := false
  attachment := none

/-- Local validation message of `handleFileSelected`. -/
def unsupportedFileMsg : String :=
  "Unsupported file type. Please select an image or audio file."

/-- Optimistic status message appended by `handleModificationRequest`. -/
def updatingText : String :=
  "Okay, I\x27m updating the app with your changes..."

/-- Optimistic status message appended by `handleBuildApp`. -/
def buildingText : String :=
  "Okay, I\x27m building that for you now. This might take a moment..."

/-- Success banner of `handleModificationRequest`. -/
def updatedText (name : String) : String :=
  "I\x27ve updated **" ++ name ++ "** with your changes! Check it out in the preview."

/-- Compact model-facing summary recorded by
`handleModificationRequest`. -/
def updatedSummary (name : String) : String :=
  "Okay, I have updated the code for " ++ name ++ " based on your request."

/-- Success banner of `handleBuildApp`. -/
def builtText (name : String) : String :=
  "I\x27ve created the first version of **" ++ name ++ "**! You can see it in the preview. Let me know what you\x27d like to change or add."

/-- Compact model-facing summary recorded by `handleBuildApp`. -/
def builtSummary (name : String) : String :=
  "Okay, I have built the first version of " ++ name ++ "."

/-- Classifier output for rate-limit/quota indicators. -/
def busyMsg : String :=
  "The service is currently experiencing high demand. Please wait a moment before trying again."

/-- Classifier output for the invalid-credential indicator. -/
def configMsg : String :=
  "There is a configuration issue with the AI service. Please notify the administrator."

/-- Classifier output for the timeout indicator. -/
def timeoutMsg : String :=
  "The request timed out. This may be due to high server load. Please try again."

/-- Classifier fallback output. -/
def genericMsg : String :=
  "Sorry, an unexpected error occurred while communicating with the AI. Please check the console for details and try again."

/-- A failure caught by one of the `catch` blocks: either an
`instanceof Error` value with its `message`, or any other thrown value. -/
inductive CaughtError where
  | jsError (message : String)
  | nonError
deriving DecidableEq

/-- `handleApiError` (source lines 426-443): maps a caught failure to
one of four fixed user-facing strings, matching lower-cased indicator
substrings in priority order. -/
def handleApiError (error : CaughtError) : String :=
  match error with
  | .jsError message =>
    let errorMessage := jsToLower message
    if hasSubStr errorMessage "429" || hasSubStr errorMessage "resource_exhausted" || hasSubStr errorMessage "quota" then
      busyMsg
    else if hasSubStr errorMessage "api key not valid" then
      configMsg
    else if hasSubStr errorMessage "deadline exceeded" then
      timeoutMsg
    else
      genericMsg
  | .nonError => genericMsg

/-- A representative V8 `TypeError` message for reading `.appName` on
`null` (thrown inside the `try` blocks after `JSON.parse` returned
`null`); it contains none of the classifier's indicator substrings,
as no engine's message for this condition does. -/
def tyErrAppNameMsg : String :=
  "Cannot read properties of null (reading \x27appName\x27)"

/-- Outcome of a schema-constrained `generateContent` call as the code
consumes it: the promise rejected (`fail`), it resolved but
`JSON.parse(response.text.trim())` threw (`parseFail`, carrying the
thrown `SyntaxError`'s message), or parsing yielded a JS value
(`parsed`). -/
inductive SchemaResponse where
  | fail (e : CaughtError)
  | parseFail (message : String)
  | parsed (v : JsValue)

/-- Outcome of the free-form clarifying `generateContent` call: the
promise rejected, or resolved with `response.text`. -/
inductive ChatResponse where
  | fail (e : CaughtError)
  | text (t : String)

/-- Which branch `handleSendMessage` took: the early return, the
clarifying-chat flow, or the modification flow. -/
inductive SendPath where
  | noop
  | chat
  | modify
deriving DecidableEq

/-- The selected file as the handler reads it: `file.type`, `file.name`,
and the data URL produced by `FileReader.readAsDataURL` (whose `onload`
is modelled as completing synchronously). -/
structure FileInput where
  ftype : String
  fname : String
  dataUrl : String
deriving DecidableEq

/-- `handleFileSelected` (source lines 124-143).  Clearing the DOM
`input.value` is not component state and is not modelled. -/
def handleFileSelected (s : LimoState) (file : Option FileInput) : LimoState :=
  match file with
  | none => s
  | some f =>
    if !(strStartsWith f.ftype "image/") && !(strStartsWith f.ftype "audio/") then
      { s with error := some unsupportedFileMsg }
    else
      { s with
        error := none,
        attachment := some
          { ftype := f.ftype, fname := f.fname, dataUrl := f.dataUrl,
            kind := if strStartsWith f.ftype "image/" then .image else .audio } }

/-- `removeAttachment` (source lines 145-147). -/
def removeAttachment (s : LimoState) : LimoState :=
  { s with attachment := none }

/-- `handlePromptInput` (source lines 112-115): the textarea value
becomes `currentPrompt`. -/
def handlePromptInput (s : LimoState) (value : String) : LimoState :=
  { s with currentPrompt := value }

/-- `toggleFullscreen` (source lines 522-524). -/
def toggleFullscreen (s : LimoState) : LimoState :=
  { s with isFullscreen := !s.isFullscreen }

/-- `dataUrl.split(",")[0]`. -/
def dataUrlHeader (u : String) : String :=
  ⟨u.data.takeWhile (fun c => c != ',')⟩

/-- `dataUrl.split(",")[1]` (empty when the URL has no comma; a
`FileReader` data URL always has one). -/
def dataUrlB64 (u : String) : String :=
  ⟨((u.data.dropWhile (fun c => c != ',')).drop 1).takeWhile (fun c => c != ',')⟩

/-- `header.match(/:(.*?);/)?.[1]`: the (lazy) capture between the first
`:` and the next `;`, when both exist. -/
def mimeFromHeader (h : String) : Option String :=
  match h.data.dropWhile (fun c => c != ':') with
  | [] => none
  | _ :: rest =>
    if rest.contains ';' then some ⟨rest.takeWhile (fun c => c != ';')⟩ else none

/-- `header.match(/:(.*?);/)?.[1] || this.attachment.file.type`
(`||` falls back on an empty capture too). -/
def attachMime (a : Attachment) : String :=
  match mimeFromHeader (dataUrlHeader a.dataUrl) with
  | some m => if m == "" then a.ftype else m
  | none => a.ftype

/-- The optimistic user-authored display entry both send flows append. -/
def userDisplayMessage (att : Option Attachment) (text : String) : DisplayMessage :=
  { author := .user,
    text := text,
    attachment := att.map (fun a => { url := a.dataUrl, kind := a.kind }) }

/-- The inline-data-then-text part list both send flows build for a user
turn. -/
def userPartsOf (att : Option Attachment) (text : String) : List HistoryPart :=
  (match att with
   | some a => [{ inlineData := some { mimeType := attachMime a, data := dataUrlB64 a.dataUrl } }]
   | none => [])
  ++ (if text == "" then [] else [{ text := some text }])

/-- `handleModificationRequest` (source lines 216-344).  The huge prompt
string built from `this.appData.code.*` is only sent to the API and never
stored, so its text is not materialised; what is modelled is that
building it reads `.html`/`.css`/`.javascript` on `this.appData.code`
*before* the `try` block, so when `code` is `null`/`undefined` the method
throws out of the handler with `isLoading` still `true`. -/
def handleModificationRequest (s : LimoState) (modificationPrompt : String)
    (resp : SchemaResponse) : LimoState :=
  if truthy s.appData = false then s else
  let displayMessage := userDisplayMessage s.attachment modificationPrompt
  let historyUserParts := userPartsOf s.attachment modificationPrompt
  let s1 : LimoState :=
    { s with
      isLoading := true, error := none,
      displayHistory :=
        (s.displayHistory ++ [displayMessage]) ++ [{ author := .limo, text := updatingText }],
      currentPrompt := "", attachment := none }
  let code := jsGetD s.appData "code"
  if canAccess code = false then s1 else
  match resp with
  | .fail e =>
    { s1 with
      error := some (handleApiError e),
      displayHistory := s1.displayHistory.dropLast, isLoading := false }
  | .parseFail em =>
    { s1 with
      error := some (handleApiError (.jsError em)),
      displayHistory := s1.displayHistory.dropLast.dropLast, isLoading := false }
  | .parsed v =>
    let dh2 := s1.displayHistory.dropLast
    if canAccess v = false then
      { s1 with
        appData := v, error := some (handleApiError (.jsError tyErrAppNameMsg)),
        displayHistory := dh2.dropLast, isLoading := false }
    else
      let name := jsToString (jsGetD v "appName")
      { s1 with
        appData := v,
        displayHistory := dh2 ++ [{ author := .limo, text := updatedText name }],
        history := s.history ++
          [{ role := .user, parts := historyUserParts },
           { role := .model, parts := [{ text := some (updatedSummary name) }] }],
        isLoading := false }

/-- `displayHistory.map((msg, index) => index === messageIndex ?
{ ...msg, buildCompleted: true } : msg)`, with the running index made
explicit. -/
def markFrom (cur target : Nat) (l : List DisplayMessage) : List DisplayMessage :=
  match l with
  | [] => []
  | m :: rest =>
    (if cur = target then { m with buildCompleted := true } else m) :: markFrom (cur + 1) target rest

/-- `handleBuildApp` (source lines 347-424).  The synthesis instruction
is only sent to the API (a local `currentHistory`), never stored. -/
def handleBuildApp (s : LimoState) (messageIndex : Nat) (resp : SchemaResponse) : LimoState :=
  let s1 : LimoState :=
    { s with
      isLoading := true, error := none,
      displayHistory :=
        markFrom 0 messageIndex s.displayHistory ++ [{ author := .limo, text := buildingText }] }
  match resp with
  | .fail e =>
    { s1 with
      error := some (handleApiError e),
      displayHistory := s1.displayHistory.dropLast, isLoading := false }
  | .parseFail em =>
    { s1 with
      error := some (handleApiError (.jsError em)),
      displayHistory := s1.displayHistory.dropLast.dropLast, isLoading := false }
  | .parsed v =>
    let dh2 := s1.displayHistory.dropLast
    if canAccess v = false then
      { s1 with
        appData := v, error := some (handleApiError (.jsError tyErrAppNameMsg)),
        displayHistory := dh2.dropLast, isLoading := false }
    else
      let name := jsToString (jsGetD v "appName")
      { s1 with
        appData := v,
        history := s.history ++ [{ role := .model, parts := [{ text := some (builtSummary name) }] }],
        displayHistory := dh2 ++ [{ author := .limo, text := builtText name }],
        activeTab := .preview, isLoading := false }

/-- `handleSendMessage` (source lines 150-213), returning the state and
which branch ran.  The two possible downstream calls are supplied as
parameters; only the one actually reached matters. -/
def handleSendMessage (s : LimoState) (chatResp : ChatResponse)
    (modResp : SchemaResponse) : LimoState × SendPath :=
  let userText := jsTrim s.currentPrompt
  if (userText == "" && s.attachment.isNone) || s.isLoading then (s, .noop)
  else if truthy s.appData then (handleModificationRequest s userText modResp, .modify)
  else
    let displayMessage := userDisplayMessage s.attachment userText
    let currentHistory := s.history ++ [{ role := .user, parts := userPartsOf s.attachment userText }]
    let s1 : LimoState :=
      { s with
        isLoading := true, error := none, currentPrompt := "",
        displayHistory := s.displayHistory ++ [displayMessage], attachment := none }
    match chatResp with
    | .fail e =>
      ({ s1 with
         error := some (handleApiError e),
         displayHistory := s1.displayHistory.dropLast, isLoading := false }, .chat)
    | .text t =>
      let aiTrimmed := jsTrim t
      let proposeBuild := strEndsWith aiTrimmed BUILD_PROPOSAL_TOKEN
      let aiText :=
        if proposeBuild then jsTrim (replaceFirst aiTrimmed BUILD_PROPOSAL_TOKEN) else aiTrimmed
      ({ s1 with
         displayHistory :=
           s1.displayHistory ++ [{ author := .limo, text := aiText, proposeBuild := proposeBuild }],
         history := currentHistory ++ [{ role := .model, parts := [{ text := some aiText }] }],
         isLoading := false }, .chat)

/-- The render condition for the "Build App" action on a message
(source line 620): `msg.proposeBuild && !msg.buildCompleted`. -/
def buildButtonVisible (m : DisplayMessage) : Bool :=
  m.proposeBuild && !m.buildCompleted

/-- Is `v` a string value? -/
def isStrV : JsValue → Bool
  | .str _ => true
  | _ => false

/-- All nine required leaf fields of the response schema (`appName`, the
five `theme` fields, the three `code` fields) are present as strings. -/
def isCompleteAppData (v : JsValue) : Bool :=
  isStrV (jsGetD v "appName")
  && (canAccess (jsGetD v "theme")
      && isStrV (jsGetD (jsGetD v "theme") "backgroundColor")
      && isStrV (jsGetD (jsGetD v "theme") "primaryColor")
      && isStrV (jsGetD (jsGetD v "theme") "textColor")
      && isStrV (jsGetD (jsGetD v "theme") "headerFont")
      && isStrV (jsGetD (jsGetD v "theme") "bodyFont"))
  && (canAccess (jsGetD v "code")
      && isStrV (jsGetD (jsGetD v "code") "html")
      && isStrV (jsGetD (jsGetD v "code") "css")
      && isStrV (jsGetD (jsGetD v "code") "javascript"))

/-- The Google-Fonts URL (source line 448): both font names with every
space replaced by `+`. -/
def fontUrl (hf bf : String) : String :=
  "https://fonts.googleapis.com/css2?family=" ++ plusSpaces hf
    ++ ":wght@400;700&family=" ++ plusSpaces bf ++ ":wght@400;700&display=swap"

/-- The font-loading `<link>` element of the generated document. -/
def fontLinkTag (hf bf : String) : String :=
  "<link rel=\"stylesheet\" href=\"" ++ fontUrl hf bf ++ "\">"

/-- The `:root` block defining the five CSS custom properties from the
theme (literal braces written as \x7b/\x7d). -/
def cssVarsBlock (bg pc tc hf bf : String) : String :=
  ":root \x7b\n              --website-bg-color: " ++ bg
    ++ ";\n              --website-primary-color: " ++ pc
    ++ ";\n              --website-text-color: " ++ tc
    ++ ";\n              --website-header-font: \x27" ++ hf
    ++ "\x27, sans-serif;\n              --website-body-font: \x27" ++ bf
    ++ "\x27, sans-serif;\n            \x7d"

/-- The fixed baseline stylesheet (body, canvas, heading and button
rules) that precedes the artifact's own CSS. -/
def baselineCss : String :=
  "body \x7b\n              background-color: var(--website-bg-color);\n              color: var(--website-text-color);\n              font-family: var(--website-body-font);\n              margin: 0;\n              padding: 1rem;\n              box-sizing: border-box;\n              overflow: hidden;\n            \x7d\n            canvas \x7b\n              display: block;\n              width: 100%;\n              height: 100%;\n            \x7d\n            h1, h2, h3 \x7b\n              font-family: var(--website-header-font);\n              padding: 0 1rem;\n            \x7d\n            button, input[type=\"button\"], input[type=\"submit\"] \x7b\n              background-color: var(--website-primary-color);\n              color: white;\n              border: none;\n              padding: 0.75em 1.5em;\n              border-radius: 6px;\n              cursor: pointer;\n              font-family: var(--website-body-font);\n            \x7d"

/-- The script wrapper (source lines 450-453): a module script when the
JavaScript contains the substring `"import "`, a classic script
otherwise. -/
def scriptTagOf (js : String) : String :=
  if hasSubStr js "import " then "<script type=\"module\">" ++ js ++ "</script>"
  else "<script>" ++ js ++ "</script>"

/-- Document text before the font link. -/
def docOpen : String := "\n      <!DOCTYPE html>\n      <html>\n        <head>\n          "

/-- Document text between the font link and the `:root` block. -/
def docStyleOpen : String := "\n          <style>\n            "

/-- Newline-and-indent separating the style blocks. -/
def docIndent : String := "\n            "

/-- Document text between the artifact CSS and the artifact HTML. -/
def docStyleClose : String := "\n          </style>\n        </head>\n        <body>\n          "

/-- Newline-and-indent between the artifact HTML and the script tag. -/
def docBodySep : String := "\n          "

/-- Document text after the script tag. -/
def docClose : String := "\n        </body>\n      </html>\n    "

/-- The full document template of `getIframeContent`, with the
interpolated pieces as arguments. -/
def iframeDoc (hf bf bg pc tc cssStr htmlStr js : String) : String :=
  docOpen ++ fontLinkTag hf bf ++ docStyleOpen ++ cssVarsBlock bg pc tc hf bf
    ++ docIndent ++ baselineCss ++ docIndent ++ cssStr ++ docStyleClose
    ++ htmlStr ++ docBodySep ++ scriptTagOf js ++ docClose

/-- Read property `k` of `base` as a string for a position where the
code calls a string method on it (`.replace`, `.includes`): `none`
models the `TypeError` thrown when `base` is inaccessible or the
property is not a string. -/
def asStrProp (base : JsValue) (k : String) : Option String :=
  if canAccess base then
    match jsGetD base k with
    | .str s => some s
    | _ => none
  else none

/-- `getIframeContent` (source lines 445-504): `""` when no app data,
otherwise the self-contained document; `none` models a throw while
building it (only possible on malformed app data). -/
def getIframeContent (appData : JsValue) : Option String :=
  if truthy appData = false then some "" else
  let theme := jsGetD appData "theme"
  let code := jsGetD appData "code"
  match asStrProp theme "headerFont", asStrProp theme "bodyFont", asStrProp code "javascript" with
  | some hf, some bf, some js =>
    some (iframeDoc hf bf
      (jsToString (jsGetD theme "backgroundColor"))
      (jsToString (jsGetD theme "primaryColor"))
      (jsToString (jsGetD theme "textColor"))
      (jsToString (jsGetD code "css"))
      (jsToString (jsGetD code "html"))
      js)
  | _, _, _ => none

/-- A schema-conforming theme object used as a concrete fixture. -/
def sampleTheme : JsValue :=
  .obj [("backgroundColor", .str "#FFFFFF"), ("primaryColor", .str "#4A90E2"),
        ("textColor", .str "#333333"), ("headerFont", .str "Poppins"),
        ("bodyFont", .str "Open Sans")]

/-- A schema-conforming code object used as a concrete fixture. -/
def sampleCode : JsValue :=
  .obj [("html", .str "<div id=\x27board\x27></div>"), ("css", .str ""),
        ("javascript", .str "console.log(1)")]

/-- A fully populated AppData value used as a concrete fixture. -/
def sampleAppData : JsValue :=
  .obj [("appName", .str "TicTacToe"), ("theme", sampleTheme), ("code", sampleCode)]

/-- A `HasApp` component state holding the sample artifact. -/
def hasAppState : LimoState :=
  { initState with appData := sampleAppData }

/-- State after the user sends a first description and the model replies
with a clarifying answer carrying the build-proposal marker (reached from
`initState` by `handlePromptInput` then `handleSendMessage`). -/
def proposalState : LimoState :=
  (handleSendMessage (handlePromptInput initState "A 3D game")
    (.text "Great, ready to build! [PROPOSE_BUILD]") (.fail .nonError)).1

/-- State after clicking the visible Build action on the proposal while a
schema-violating response text `"0"` comes back: `JSON.parse("0")`
yields the number `0`, which is stored in `appData`. -/
def falsyAppDataState : LimoState :=
  handleBuildApp proposalState 2 (.parsed (.num 0))

/-- `falsyAppDataState` with a fresh modification request typed in. -/
def falsyResendState : LimoState :=
  handlePromptInput falsyAppDataState "add a win counter"

/-- Rate-limit/quota indicator check of the classifier, named for the
specification. -/
def rateLimitIndicated (m : String) : Bool :=
  hasSubStr (jsToLower m) "429" || hasSubStr (jsToLower m) "resource_exhausted"
    || hasSubStr (jsToLower m) "quota"

/-- Invalid-credential indicator check of the classifier. -/
def badKeyIndicated (m : String) : Bool :=
  hasSubStr (jsToLower m) "api key not valid"

/-- Timeout indicator check of the classifier. -/
def timeoutIndicated (m : String) : Bool :=
  hasSubStr (jsToLower m) "deadline exceeded"

theorem strExt (a b : String) (h : a.data = b.data) : a = b := by
  cases a; cases b; exact congrArg String.mk h

theorem sappend_assoc (a b c : String) : (a ++ b) ++ c = a ++ (b ++ c) :=
  strExt _ _ (List.append_assoc a.data b.data c.data)

theorem infixOfB_iff (pat l : List Char) : infixOfB pat l = true ↔ pat <:+: l := by
  induction l with
  | nil => simp [infixOfB, List.isEmpty_iff]
  | cons c cs ih =>
    simp [infixOfB, Bool.or_eq_true, List.isPrefixOf_iff_prefix, ih, List.infix_cons_iff]

theorem hasSubStr_of_middle (s x p y : String) (h : s = x ++ p ++ y) :
    hasSubStr s p = true := by
  subst h
  unfold hasSubStr
  rw [infixOfB_iff]
  exact List.infix_append _ _ _

theorem canAccessOfGetStr {v : JsValue} {k t : String} (h : jsGetD v k = .str t) :
    canAccess v = true := by
  cases v <;> simp [jsGetD, jsGetOpt, canAccess] at h ⊢

theorem markFrom_length (c t : Nat) (l : List DisplayMessage) :
    (markFrom c t l).length = l.length := by
  induction l generalizing c with
  | nil => rfl
  | cons m rest ih => simp [markFrom, ih]

theorem markFrom_getElem? (c t i : Nat) (l : List DisplayMessage) :
    (markFrom c t l)[i]?
      = (l[i]?).map (fun m => if c + i = t then { m with buildCompleted := true } else m) := by
  induction l generalizing c i with
  | nil => simp [markFrom]
  | cons m rest ih =>
    cases i with
    | zero => simp [markFrom]
    | succ j =>
      have e : c + 1 + j = c + (j + 1) := by omega
      simpa [markFrom, e] using ih (c + 1) j

theorem getElem?_dropLast_imp {α : Type} (l : List α) (i : Nat) (x : α)
    (h : l.dropLast[i]? = some x) : l[i]? = some x := by
  induction l generalizing i with
  | nil => simp at h
  | cons a rest ih =>
    cases rest with
    | nil => simp [List.dropLast] at h
    | cons b rest2 =>
      cases i with
      | zero => simpa [List.dropLast] using h
      | succ j =>
        simp only [List.dropLast] at h
        simp only [List.getElem?_cons_succ] at h ⊢
        exact ih j h

/-- C6: invoking `handleSendMessage` while `isLoading` is true is a
complete no-op — the returned state is the input state (so `history`,
`displayHistory`, `appData`, `attachment` and `currentPrompt` are all
unchanged) and the taken path is `noop`, i.e. no generation call is
issued. -/
theorem sendWhileBusyIsNoop (s : LimoState) (chatResp : ChatResponse)
    (modResp : SchemaResponse) (h : s.isLoading = true) :
    handleSendMessage s chatResp modResp = (s, .noop) := by
  unfold handleSendMessage
  simp [h]

theorem sendWhileBusyIsNoopWitness :
    handleSendMessage { initState with isLoading := true } (.text "hi") (.fail .nonError)
      = ({ initState with isLoading := true }, .noop) :=
  sendWhileBusyIsNoop { initState with isLoading := true } (.text "hi") (.fail .nonError) rfl

/-- C7: the error classifier maps every caught failure to exactly one of
the four fixed user-facing strings (never the raw provider text), testing
the lower-cased message against the indicators in priority order:
rate-limit/quota, then invalid credential, then timeout, then the generic
fallback; a non-`Error` value is always classified generically. -/
theorem classifierPriorityAndRange (e : CaughtError) :
    (handleApiError e = busyMsg ∨ handleApiError e = configMsg
      ∨ handleApiError e = timeoutMsg ∨ handleApiError e = genericMsg)
    ∧ (∀ m, e = .jsError m →
        (rateLimitIndicated m = true → handleApiError e = busyMsg)
        ∧ (rateLimitIndicated m = false → badKeyIndicated m = true →
            handleApiError e = configMsg)
        ∧ (rateLimitIndicated m = false → badKeyIndicated m = false →
            timeoutIndicated m = true → handleApiError e = timeoutMsg)
        ∧ (rateLimitIndicated m = false → badKeyIndicated m = false →
            timeoutIndicated m = false → handleApiError e = genericMsg))
    ∧ (e = .nonError → handleApiError e = genericMsg) := by
  cases e with
  | nonError =>
    exact ⟨Or.inr (Or.inr (Or.inr rfl)),
      ⟨fun m h => CaughtError.noConfusion h, fun _ => rfl⟩⟩
  | jsError m =>
    have hmain : handleApiError (.jsError m)
        = if rateLimitIndicated m then busyMsg
          else if badKeyIndicated m then configMsg
          else if timeoutIndicated m then timeoutMsg
          else genericMsg := rfl
    refine ⟨?_, ?_, fun h => nomatch h⟩
    · rw [hmain]
      cases hr : rateLimitIndicated m <;> cases hb : badKeyIndicated m <;>
        cases ht : timeoutIndicated m <;> simp
    · intro m2 hm2
      cases hm2
      refine ⟨fun hr => ?_, fun hr hb => ?_, fun hr hb ht => ?_, fun hr hb ht => ?_⟩
      · rw [hmain]; simp [hr]
      · rw [hmain]; simp [hr, hb]
      · rw [hmain]; simp [hr, hb, ht]
      · rw [hmain]; simp [hr, hb, ht]

theorem classifierPriorityAndRangeWitness :
    handleApiError (.jsError "HTTP 429: quota exceeded") = busyMsg :=
  ((classifierPriorityAndRange (.jsError "HTTP 429: quota exceeded")).2.1
    "HTTP 429: quota exceeded" rfl).1 (by decide)

/-- C9: a selected file whose MIME type starts with neither `image/` nor
`audio/` only sets the local validation error (attachment, chat history
and display history are untouched, as the whole state record shows);
a file with an `image/` or `audio/` prefix is stored as the pending
attachment with the matching coarse kind. -/
theorem attachmentValidation (s : LimoState) (f : FileInput) :
    (strStartsWith f.ftype "image/" = false → strStartsWith f.ftype "audio/" = false →
      handleFileSelected s (some f) = { s with error := some unsupportedFileMsg })
    ∧ (strStartsWith f.ftype "image/" = true →
      handleFileSelected s (some f)
        = { s with
            error := none,
            attachment := some
              { ftype := f.ftype, fname := f.fname, dataUrl := f.dataUrl, kind := .image } })
    ∧ (strStartsWith f.ftype "audio/" = true → strStartsWith f.ftype "image/" = false →
      handleFileSelected s (some f)
        = { s with
            error := none,
            attachment := some
              { ftype := f.ftype, fname := f.fname, dataUrl := f.dataUrl, kind := .audio } }) := by
  refine ⟨fun h1 h2 => ?_, fun h1 => ?_, fun h1 h2 => ?_⟩ <;>
    simp [handleFileSelected, h1]
  · simp [h2]
  · simp [h2]

theorem attachmentValidationWitness :
    (handleFileSelected initState
        (some { ftype := "text/plain", fname := "a.txt", dataUrl := "data:text/plain;base64,QQ==" })
      = { initState with error := some unsupportedFileMsg })
    ∧ (handleFileSelected initState
        (some { ftype := "image/png", fname := "a.png", dataUrl := "data:image/png;base64,QQ==" })
      = { initState with
          error := none,
          attachment := some
            { ftype := "image/png", fname := "a.png",
              dataUrl := "data:image/png;base64,QQ==", kind := .image } }) :=
  ⟨(attachmentValidation initState
      { ftype := "text/plain", fname := "a.txt", dataUrl := "data:text/plain;base64,QQ==" }).1
      (by decide) (by decide),
   (attachmentValidation initState
      { ftype := "image/png", fname := "a.png", dataUrl := "data:image/png;base64,QQ==" }).2.1
      (by decide)⟩

/-- C2: when the response text fails to parse as JSON (`JSON.parse`
throws), both the build and the modification operation leave `appData`
exactly as it was and surface the classified format failure in `error`
(the thrown `SyntaxError` routed through `handleApiError`). -/
theorem malformedJsonLeavesAppData (s : LimoState) (idx : Nat) (em : String)
    (s2 : LimoState) (p em2 : String)
    (h1 : truthy s2.appData = true)
    (h2 : canAccess (jsGetD s2.appData "code") = true) :
    ((handleBuildApp s idx (.parseFail em)).appData = s.appData
      ∧ (handleBuildApp s idx (.parseFail em)).error = some (handleApiError (.jsError em)))
    ∧ ((handleModificationRequest s2 p (.parseFail em2)).appData = s2.appData
      ∧ (handleModificationRequest s2 p (.parseFail em2)).error
          = some (handleApiError (.jsError em2))) := by
  constructor
  · constructor <;> rfl
  · unfold handleModificationRequest
    simp [h1, h2]

theorem malformedJsonLeavesAppDataWitness :
    ((handleBuildApp initState 0 (.parseFail "Unexpected token")).appData = initState.appData
      ∧ (handleBuildApp initState 0 (.parseFail "Unexpected token")).error
          = some (handleApiError (.jsError "Unexpected token")))
    ∧ ((handleModificationRequest hasAppState "make it blue" (.parseFail "Unexpected end of JSON input")).appData
          = hasAppState.appData
      ∧ (handleModificationRequest hasAppState "make it blue" (.parseFail "Unexpected end of JSON input")).error
          = some (handleApiError (.jsError "Unexpected end of JSON input"))) :=
  malformedJsonLeavesAppData initState 0 "Unexpected token" hasAppState
    "make it blue" "Unexpected end of JSON input" (by decide) (by decide)

/-- C1 (counterexample): the build operation stores a parsed-but-partial
artifact.  `JSON.parse` succeeds on `"{}"`, yielding the empty object,
which is missing all nine required leaf fields; the operation commits it
to `appData` and reports no error at all — no `FormatError` is raised
and the partial artifact is stored. -/
theorem partialArtifactStored :
    (handleBuildApp initState 0 (.parsed (.obj []))).appData = .obj []
    ∧ isCompleteAppData (.obj []) = false
    ∧ (handleBuildApp initState 0 (.parsed (.obj []))).error = none := by
  exact ⟨rfl, rfl, rfl⟩

/-- C1 (amended): the build and modification operations validate nothing
client-side beyond `JSON.parse` itself — whatever JS value the text
parses to is committed to `appData` unconditionally (field presence is
delegated to the provider-side response schema); only a text that fails
to parse is rejected. -/
theorem parsedValueStoredUnvalidated (s : LimoState) (idx : Nat) (v : JsValue)
    (s2 : LimoState) (p : String) (v2 : JsValue)
    (h1 : truthy s2.appData = true)
    (h2 : canAccess (jsGetD s2.appData "code") = true) :
    (handleBuildApp s idx (.parsed v)).appData = v
    ∧ (handleModificationRequest s2 p (.parsed v2)).appData = v2 := by
  constructor
  · unfold handleBuildApp
    dsimp only
    split <;> rfl
  · unfold handleModificationRequest
    simp only [h1, h2]
    split
    · next hcontra => exact absurd hcontra (by simp)
    · split <;> rfl

theorem parsedValueStoredUnvalidatedWitness :
    (handleBuildApp initState 0 (.parsed (.str "oops"))).appData = .str "oops"
    ∧ (handleModificationRequest hasAppState "tweak" (.parsed (.num 7))).appData = .num 7 :=
  parsedValueStoredUnvalidated initState 0 (.str "oops") hasAppState "tweak" (.num 7)
    (by decide) (by decide)

/-- C3 (counterexample): on a modification whose response text fails to
parse, the success path has already popped the working-status entry when
`JSON.parse` throws, and the catch pops again — so the user's message is
removed as well.  The claim predicts only the working-status entry is
removed (leaving the user's entry appended); the code returns the
display history to its pre-call value instead. -/
theorem modifyParseFailureDoublePop :
    (handleModificationRequest hasAppState "make it blue" (.parseFail "Unexpected token")).displayHistory
      = hasAppState.displayHistory
    ∧ hasAppState.displayHistory
        ≠ hasAppState.displayHistory ++ [userDisplayMessage hasAppState.attachment "make it blue"] := by
  constructor
  · rfl
  · intro h
    have hlen := congrArg List.length h
    simp at hlen

/-- C3 (amended): on a transport failure (the request itself rejects)
each action removes exactly its optimistic entries — the chat send's
user entry (net display history unchanged), the modify/build
working-status entry — sets the classified error and clears the busy
flag; on a JSON parse failure in modify/build the working-status entry
was already removed by the success path and the catch removes one
additional entry: the user's message for modify, the last remaining
entry for build. -/
theorem rollbackOnFailure (s : LimoState) (e : CaughtError) (em : String)
    (idx : Nat) (p : String) (c2 : SchemaResponse)
    (hguard : ((jsTrim s.currentPrompt == "" && s.attachment.isNone) || s.isLoading) = false)
    (hnoapp : truthy s.appData = false)
    (s2 : LimoState)
    (happ : truthy s2.appData = true)
    (hcode : canAccess (jsGetD s2.appData "code") = true) :
    ((handleSendMessage s (.fail e) c2).1.displayHistory = s.displayHistory
      ∧ (handleSendMessage s (.fail e) c2).1.error = some (handleApiError e)
      ∧ (handleSendMessage s (.fail e) c2).1.isLoading = false)
    ∧ ((handleModificationRequest s2 p (.fail e)).displayHistory
          = s2.displayHistory ++ [userDisplayMessage s2.attachment p]
      ∧ (handleModificationRequest s2 p (.fail e)).error = some (handleApiError e)
      ∧ (handleModificationRequest s2 p (.fail e)).isLoading = false)
    ∧ ((handleBuildApp s2 idx (.fail e)).displayHistory = markFrom 0 idx s2.displayHistory
      ∧ (handleBuildApp s2 idx (.fail e)).error = some (handleApiError e)
      ∧ (handleBuildApp s2 idx (.fail e)).isLoading = false)
    ∧ ((handleModificationRequest s2 p (.parseFail em)).displayHistory = s2.displayHistory
      ∧ (handleModificationRequest s2 p (.parseFail em)).error
          = some (handleApiError (.jsError em))
      ∧ (handleModificationRequest s2 p (.parseFail em)).isLoading = false)
    ∧ ((handleBuildApp s2 idx (.parseFail em)).displayHistory
          = (markFrom 0 idx s2.displayHistory).dropLast
      ∧ (handleBuildApp s2 idx (.parseFail em)).error
          = some (handleApiError (.jsError em))
      ∧ (handleBuildApp s2 idx (.parseFail em)).isLoading = false) := by
  refine ⟨⟨?_, ?_, ?_⟩, ⟨?_, ?_, ?_⟩, ⟨?_, ?_, ?_⟩, ⟨?_, ?_, ?_⟩, ⟨?_, ?_, ?_⟩⟩
  · unfold handleSendMessage
    simp [hguard, hnoapp, List.dropLast_concat]
  · unfold handleSendMessage
    simp [hguard, hnoapp]
  · unfold handleSendMessage
    simp [hguard, hnoapp]
  · unfold handleModificationRequest
    simp [happ, hcode, List.dropLast_concat]
  · unfold handleModificationRequest
    simp [happ, hcode]
  · unfold handleModificationRequest
    simp [happ, hcode]
  · unfold handleBuildApp
    simp [List.dropLast_concat]
  · rfl
  · rfl
  · unfold handleModificationRequest
    simp [happ, hcode, List.dropLast_concat]
  · unfold handleModificationRequest
    simp [happ, hcode]
  · unfold handleModificationRequest
    simp [happ, hcode]
  · unfold handleBuildApp
    simp [List.dropLast_concat]
  · rfl
  · rfl

theorem rollbackOnFailureWitness :
    (handleSendMessage (handlePromptInput initState "hello") (.fail .nonError) (.fail .nonError)).1.displayHistory
      = (handlePromptInput initState "hello").displayHistory
    ∧ (handleModificationRequest hasAppState "tweak" (.parseFail "Unexpected end of JSON input")).displayHistory
        = hasAppState.displayHistory :=
  ⟨(rollbackOnFailure (handlePromptInput initState "hello") .nonError "Unexpected end of JSON input"
      0 "tweak" (.fail .nonError) (by decide) rfl hasAppState (by decide) (by decide)).1.1,
   (rollbackOnFailure (handlePromptInput initState "hello") .nonError "Unexpected end of JSON input"
      0 "tweak" (.fail .nonError) (by decide) rfl hasAppState (by decide) (by decide)).2.2.2.1.1⟩


/-- C4 (counterexample): a reachable state (the composition above, from
`initState`, through a legal Build click — the proposal entry is shown
with a visible Build action and the app is not busy) in which `appData`
is non-null (it holds the number `0`) and yet `handleSendMessage` routes
the next message to the clarifying-chat path, because the route test is
JS truthiness of `appData`, not a null comparison. -/
theorem nonNullFalsyAppDataRoutesToChat :
    proposalState.displayHistory[2]?
      = some { author := .limo, text := "Great, ready to build!", proposeBuild := true }
    ∧ buildButtonVisible
        { author := .limo, text := "Great, ready to build!", proposeBuild := true } = true
    ∧ proposalState.isLoading = false
    ∧ falsyAppDataState.appData = JsValue.num 0
    ∧ falsyAppDataState.appData ≠ JsValue.null
    ∧ (handleSendMessage falsyResendState (.text "Sure, tell me more.") (.fail .nonError)).2
        = SendPath.chat := by
  refine ⟨rfl, rfl, rfl, rfl, fun h => JsValue.noConfusion h, rfl⟩

/-- C4 (amended): whenever `appData` holds a *truthy* value (any object,
in particular every schema-conforming artifact), `handleSendMessage`
never takes the clarifying-chat path, and whenever it actually sends
(non-empty input or attachment, not busy) it invokes the modification
path on the trimmed prompt; only a falsy `appData` (null, or a falsy
primitive stored from an unvalidated response such as `0`) routes to the
chat path. -/
theorem truthyAppDataAlwaysModifies (s : LimoState) (c : ChatResponse) (m : SchemaResponse)
    (h : truthy s.appData = true) :
    (handleSendMessage s c m).2 ≠ SendPath.chat
    ∧ (((jsTrim s.currentPrompt == "" && s.attachment.isNone) || s.isLoading) = false →
        handleSendMessage s c m
          = (handleModificationRequest s (jsTrim s.currentPrompt) m, SendPath.modify)) := by
  unfold handleSendMessage
  cases hg : ((jsTrim s.currentPrompt == "" && s.attachment.isNone) || s.isLoading) with
  | true => simp [hg]
  | false => simp [hg, h]

theorem truthyAppDataAlwaysModifiesWitness :
    (handleSendMessage { hasAppState with currentPrompt := "tweak it" }
        (.text "reply") (.parseFail "x")).2 ≠ SendPath.chat
    ∧ ((((jsTrim ({ hasAppState with currentPrompt := "tweak it" } : LimoState).currentPrompt == ""
          && ({ hasAppState with currentPrompt := "tweak it" } : LimoState).attachment.isNone)
          || ({ hasAppState with currentPrompt := "tweak it" } : LimoState).isLoading) = false) →
        handleSendMessage { hasAppState with currentPrompt := "tweak it" }
            (.text "reply") (.parseFail "x")
          = (handleModificationRequest { hasAppState with currentPrompt := "tweak it" }
              (jsTrim "tweak it") (.parseFail "x"), SendPath.modify)) :=
  truthyAppDataAlwaysModifies { hasAppState with currentPrompt := "tweak it" }
    (.text "reply") (.parseFail "x") (by decide)

/-- C5 (counterexample): `aiText.replace(TOKEN, "")` removes only the
*first* occurrence.  For the trimmed reply
`"[PROPOSE_BUILD] hello [PROPOSE_BUILD]"` (which ends with the token, so
`proposeBuild` is true) the leading occurrence is removed and the
displayed text still contains the token — contradicting "the displayed
text never contains the token". -/
theorem displayedTextKeepsTrailingToken :
    (handleSendMessage (handlePromptInput initState "hi")
        (.text "[PROPOSE_BUILD] hello [PROPOSE_BUILD]") (.fail .nonError)).1.displayHistory.getLast?
      = some { author := .limo, text := "hello [PROPOSE_BUILD]", proposeBuild := true }
    ∧ hasSubStr "hello [PROPOSE_BUILD]" BUILD_PROPOSAL_TOKEN = true := by
  exact ⟨rfl, by decide⟩

/-- C5 (amended): the chat reply handling appends a message whose
`proposeBuild` flag is exactly "the trimmed reply ends with the token",
and whose displayed text is the trimmed reply with the *first* occurrence
of the token removed and the result re-trimmed when the flag is set
(so the token disappears whenever its only occurrence is the trailing
one), and the trimmed reply unchanged otherwise. -/
theorem proposalMarkerDetection (s : LimoState) (m : SchemaResponse) (t : String)
    (hguard : ((jsTrim s.currentPrompt == "" && s.attachment.isNone) || s.isLoading) = false)
    (hnoapp : truthy s.appData = false) :
    (handleSendMessage s (.text t) m).1.displayHistory.getLast?
      = some { author := .limo,
               text := if strEndsWith (jsTrim t) BUILD_PROPOSAL_TOKEN
                       then jsTrim (replaceFirst (jsTrim t) BUILD_PROPOSAL_TOKEN)
                       else jsTrim t,
               proposeBuild := strEndsWith (jsTrim t) BUILD_PROPOSAL_TOKEN } := by
  unfold handleSendMessage
  simp [hguard, hnoapp, List.getLast?_concat]

theorem proposalMarkerDetectionWitness :
    (handleSendMessage (handlePromptInput initState "an app")
        (.text "Plan ready. [PROPOSE_BUILD]") (.fail .nonError)).1.displayHistory.getLast?
      = some { author := .limo,
               text := if strEndsWith (jsTrim "Plan ready. [PROPOSE_BUILD]") BUILD_PROPOSAL_TOKEN
                       then jsTrim (replaceFirst (jsTrim "Plan ready. [PROPOSE_BUILD]")
                                      BUILD_PROPOSAL_TOKEN)
                       else jsTrim "Plan ready. [PROPOSE_BUILD]",
               proposeBuild := strEndsWith (jsTrim "Plan ready. [PROPOSE_BUILD]")
                                 BUILD_PROPOSAL_TOKEN } :=
  proposalMarkerDetection (handlePromptInput initState "an app") (.fail .nonError)
    "Plan ready. [PROPOSE_BUILD]" (by decide) rfl

/-- C10: `handleBuildApp` marks the proposal entry's `buildCompleted`
flag in its optimistic update, before the response is even consulted —
so whatever the outcome (`resp` is universally quantified), any entry
still present at `messageIndex` carries `buildCompleted = true` and the
render predicate hides its Build action; on a transport failure
`appData` is untouched and the display history is exactly the marked
original, so the failed proposal's Build action is permanently gone even
though no artifact was produced. -/
theorem buildFlagPermanentlySet (s : LimoState) (idx : Nat) (resp : SchemaResponse)
    (e : CaughtError) (hidx : idx < s.displayHistory.length) :
    Option.all (fun m => m.buildCompleted && !(buildButtonVisible m))
        ((handleBuildApp s idx resp).displayHistory[idx]?) = true
    ∧ ((handleBuildApp s idx (.fail e)).appData = s.appData
      ∧ (handleBuildApp s idx (.fail e)).displayHistory[idx]?
          = (s.displayHistory[idx]?).map (fun m0 => { m0 with buildCompleted := true })) := by
  have hmark : ∀ m, (markFrom 0 idx s.displayHistory)[idx]? = some m →
      m.buildCompleted = true := by
    intro m hm
    rw [markFrom_getElem?] at hm
    cases h0 : s.displayHistory[idx]? with
    | none => rw [h0] at hm; exact Option.noConfusion hm
    | some m0 =>
      rw [h0] at hm
      simp at hm
      rw [← hm]
  have hfailDisplay : (handleBuildApp s idx (.fail e)).displayHistory
      = markFrom 0 idx s.displayHistory := by
    unfold handleBuildApp
    simp [List.dropLast_concat]
  refine ⟨?_, rfl, ?_⟩
  · have hfinal : ∀ m, (handleBuildApp s idx resp).displayHistory[idx]? = some m →
        m.buildCompleted = true := by
      intro m hm
      unfold handleBuildApp at hm
      cases resp with
      | fail e2 =>
        simp [List.dropLast_concat] at hm
        exact hmark m hm
      | parseFail em2 =>
        simp [List.dropLast_concat] at hm
        exact hmark m (getElem?_dropLast_imp _ _ _ hm)
      | parsed v =>
        by_cases hca : canAccess v = false
        · simp [hca, List.dropLast_concat] at hm
          exact hmark m (getElem?_dropLast_imp _ _ _ hm)
        · simp [hca, List.dropLast_concat] at hm
          rw [List.getElem?_append_left (by rw [markFrom_length]; exact hidx)] at hm
          exact hmark m hm
    cases hres : (handleBuildApp s idx resp).displayHistory[idx]? with
    | none => rfl
    | some m =>
      have hb := hfinal m hres
      simp [Option.all, buildButtonVisible, hb]
  · rw [hfailDisplay, markFrom_getElem?]
    simp

theorem buildFlagPermanentlySetWitness :
    Option.all (fun m => m.buildCompleted && !(buildButtonVisible m))
        ((handleBuildApp proposalState 2 (.fail .nonError)).displayHistory[2]?) = true
    ∧ ((handleBuildApp proposalState 2 (.fail .nonError)).appData = proposalState.appData
      ∧ (handleBuildApp proposalState 2 (.fail .nonError)).displayHistory[2]?
          = (proposalState.displayHistory[2]?).map
              (fun m0 => { m0 with buildCompleted := true })) :=
  buildFlagPermanentlySet proposalState 2 (.fail .nonError) .nonError (by decide)

/-- C8: the preview renderer is a pure function of the artifact (it is a
Lean function, hence deterministic), and on an artifact whose nine leaf
fields are the given strings its document embeds: the font link built
from the two font names with spaces replaced by `+` (`fontLinkTag` /
`plusSpaces`), the `:root` block deriving the five CSS custom properties
from the theme, the fixed baseline stylesheet immediately followed by the
artifact's CSS, the artifact's HTML, and the artifact's JavaScript
wrapped as a module script exactly when it contains `"import "`
(`scriptTagOf`), classic otherwise. -/
theorem previewRendererEmbeds (d : JsValue) (hf bf bg pc tc cs ht js : String)
    (h0 : truthy d = true)
    (h1 : jsGetD (jsGetD d "theme") "headerFont" = .str hf)
    (h2 : jsGetD (jsGetD d "theme") "bodyFont" = .str bf)
    (h3 : jsGetD (jsGetD d "theme") "backgroundColor" = .str bg)
    (h4 : jsGetD (jsGetD d "theme") "primaryColor" = .str pc)
    (h5 : jsGetD (jsGetD d "theme") "textColor" = .str tc)
    (h6 : jsGetD (jsGetD d "code") "css" = .str cs)
    (h7 : jsGetD (jsGetD d "code") "html" = .str ht)
    (h8 : jsGetD (jsGetD d "code") "javascript" = .str js) :
    getIframeContent d = some (iframeDoc hf bf bg pc tc cs ht js)
    ∧ hasSubStr (iframeDoc hf bf bg pc tc cs ht js) (fontLinkTag hf bf) = true
    ∧ hasSubStr (iframeDoc hf bf bg pc tc cs ht js) (cssVarsBlock bg pc tc hf bf) = true
    ∧ hasSubStr (iframeDoc hf bf bg pc tc cs ht js) (baselineCss ++ docIndent ++ cs) = true
    ∧ hasSubStr (iframeDoc hf bf bg pc tc cs ht js) ht = true
    ∧ hasSubStr (iframeDoc hf bf bg pc tc cs ht js) (scriptTagOf js) = true := by
  have hth : canAccess (jsGetD d "theme") = true := canAccessOfGetStr h1
  have hcd : canAccess (jsGetD d "code") = true := canAccessOfGetStr h8
  refine ⟨?_, ?_, ?_, ?_, ?_, ?_⟩
  · unfold getIframeContent asStrProp
    simp [h0, hth, hcd, h1, h2, h3, h4, h5, h6, h7, h8, jsToString]
  · exact hasSubStr_of_middle _ docOpen _
      (docStyleOpen ++ cssVarsBlock bg pc tc hf bf ++ docIndent ++ baselineCss ++ docIndent
        ++ cs ++ docStyleClose ++ ht ++ docBodySep ++ scriptTagOf js ++ docClose)
      (by simp [iframeDoc, sappend_assoc])
  · exact hasSubStr_of_middle _ (docOpen ++ fontLinkTag hf bf ++ docStyleOpen) _
      (docIndent ++ baselineCss ++ docIndent ++ cs ++ docStyleClose ++ ht ++ docBodySep
        ++ scriptTagOf js ++ docClose)
      (by simp [iframeDoc, sappend_assoc])
  · exact hasSubStr_of_middle _
      (docOpen ++ fontLinkTag hf bf ++ docStyleOpen ++ cssVarsBlock bg pc tc hf bf ++ docIndent) _
      (docStyleClose ++ ht ++ docBodySep ++ scriptTagOf js ++ docClose)
      (by simp [iframeDoc, sappend_assoc])
  · exact hasSubStr_of_middle _
      (docOpen ++ fontLinkTag hf bf ++ docStyleOpen ++ cssVarsBlock bg pc tc hf bf ++ docIndent
        ++ baselineCss ++ docIndent ++ cs ++ docStyleClose) _
      (docBodySep ++ scriptTagOf js ++ docClose)
      (by simp [iframeDoc, sappend_assoc])
  · exact hasSubStr_of_middle _
      (docOpen ++ fontLinkTag hf bf ++ docStyleOpen ++ cssVarsBlock bg pc tc hf bf ++ docIndent
        ++ baselineCss ++ docIndent ++ cs ++ docStyleClose ++ ht ++ docBodySep) _
      docClose
      (by simp [iframeDoc, sappend_assoc])

theorem previewRendererEmbedsWitness :
    getIframeContent sampleAppData
      = some (iframeDoc "Poppins" "Open Sans" "#FFFFFF" "#4A90E2" "#333333" ""
          "<div id=\x27board\x27></div>" "console.log(1)")
    ∧ hasSubStr (iframeDoc "Poppins" "Open Sans" "#FFFFFF" "#4A90E2" "#333333" ""
          "<div id=\x27board\x27></div>" "console.log(1)")
        (fontLinkTag "Poppins" "Open Sans") = true
    ∧ hasSubStr (iframeDoc "Poppins" "Open Sans" "#FFFFFF" "#4A90E2" "#333333" ""
          "<div id=\x27board\x27></div>" "console.log(1)")
        (cssVarsBlock "#FFFFFF" "#4A90E2" "#333333" "Poppins" "Open Sans") = true
    ∧ hasSubStr (iframeDoc "Poppins" "Open Sans" "#FFFFFF" "#4A90E2" "#333333" ""
          "<div id=\x27board\x27></div>" "console.log(1)")
        (baselineCss ++ docIndent ++ "") = true
    ∧ hasSubStr (iframeDoc "Poppins" "Open Sans" "#FFFFFF" "#4A90E2" "#333333" ""
          "<div id=\x27board\x27></div>" "console.log(1)")
        "<div id=\x27board\x27></div>" = true
    ∧ hasSubStr (iframeDoc "Poppins" "Open Sans" "#FFFFFF" "#4A90E2" "#333333" ""
          "<div id=\x27board\x27></div>" "console.log(1)")
        (scriptTagOf "console.log(1)") = true :=
  previewRendererEmbeds sampleAppData "Poppins" "Open Sans" "#FFFFFF" "#4A90E2" "#333333" ""
    "<div id=\x27board\x27></div>" "console.log(1)" rfl rfl rfl rfl rfl rfl rfl rfl rfl
